import Mathlib

/-!
Shallow embedding of the trading risk gate (crates/gate and crates/common)
and proofs of the specification claims about it.

Modelling conventions:
* Rust `f64` (aliased `Decimal` in crates/common) is embedded as `ℚ`
  (exact arithmetic); non-finite floating values do not arise in this model.
* `chrono::DateTime<Utc>` is embedded as its RFC3339 rendering (a string);
  `date_naive` corresponds to the 10-character date prefix of that rendering.
* `HashMap<String, _>` maps (orders, positions) are embedded as association
  lists with distinct keys; `remove_entry` removes the entry with the key.
* Wall-clock queries (`Utc::now()`) are passed in explicitly as a `Clock`
  (weekday, hour) and a `DateTimeUtc` value `now`.
* The exchange adapter call inside `process_request` is passed in as an
  explicit function from the desired entry price to an `Except`-valued
  result, with the dry-run branch of `ExchangeClient::submit_order`
  embedded separately.
-/

set_option maxRecDepth 100000
set_option maxHeartbeats 1000000

namespace Gate

abbrev Decimal := ℚ

/-- crates/common: `Side`. -/
inductive Side
  | Buy
  | Sell
deriving DecidableEq, Repr

/-- crates/common: `Side::opposite`. -/
def Side.opposite : Side → Side
  | Side.Buy => Side.Sell
  | Side.Sell => Side.Buy

/-- crates/common: `OrderType`. -/
inductive OrderType
  | Limit
  | Market
  | Stop
deriving DecidableEq, Repr

/-- crates/common: `OrderStatus`. -/
inductive OrderStatus
  | Open
  | Filled
  | Cancelled
deriving DecidableEq, Repr

/-- `chrono::DateTime<Utc>`, embedded as its RFC3339 rendering. -/
structure DateTimeUtc where
  rfc3339 : String
deriving DecidableEq, Repr

/-- `DateTime::date_naive`, embedded as the date prefix of the rendering. -/
def DateTimeUtc.date_naive (t : DateTimeUtc) : String :=
  t.rfc3339.take 10

/-- crates/common: `CheckResult`. -/
structure CheckResult where
  check_name : String
  passed : Bool
  value : Decimal
  limit : Decimal
  source : String
deriving DecidableEq, Repr

/-- crates/common: `RuleProposalType`. -/
inductive RuleProposalType
  | Activate
  | Suspend
  | ModifyParameter
deriving DecidableEq, Repr

/-- crates/common: `RuleProposal`. -/
structure RuleProposal where
  proposal_type : RuleProposalType
  rule_id : String
  parameter : Option String
  old_value : Option Decimal
  new_value : Option Decimal
  evidence : Option String
  is_tightening : Option Bool
deriving DecidableEq, Repr

/-- crates/common: `GateRequest` (tagged union on `request_type`). -/
inductive GateRequest
  | GetPortfolio
  | GetOpenOrders
  | GetFillHistory (since : String)
  | GetMarketData (symbol : String)
  | SubmitOrder (strategy : String) (symbol : String) (side : Side)
      (size : Decimal) (order_type : OrderType) (price : Option Decimal)
      (stop_price : Option Decimal) (thesis_slug : String)
      (planned_entry : Decimal) (planned_stop : Decimal)
  | CancelOrder (order_id : String)
  | TightenStop (order_id : String) (new_stop : Decimal)
  | ProposeRule (proposal : RuleProposal)
deriving DecidableEq, Repr

/-- crates/common: `PortfolioState`. -/
structure PortfolioState where
  account_value : Decimal
  available_cash : Decimal
  total_exposure : Decimal
  open_position_count : Nat
  daily_pnl : Decimal
  weekly_pnl : Decimal
  drawdown_from_peak : Decimal
  updated_at : DateTimeUtc
deriving DecidableEq, Repr

/-- crates/common: `Order`. -/
structure Order where
  id : String
  strategy : String
  symbol : String
  side : Side
  size : Decimal
  order_type : OrderType
  requested_price : Option Decimal
  stop_price : Option Decimal
  placed_at : DateTimeUtc
  status : OrderStatus
  thesis_slug : String
deriving DecidableEq, Repr

/-- crates/common: `Fill`. -/
structure Fill where
  order_id : String
  symbol : String
  side : Side
  size : Decimal
  price : Decimal
  fee : Decimal
  filled_at : DateTimeUtc
  strategy : String
  thesis_slug : String
  is_entry : Bool
deriving DecidableEq, Repr

/-- crates/common: `MarketState`. -/
structure MarketState where
  symbol : String
  price : Decimal
  spread_pct : Decimal
  volume_ratio : Decimal
  realized_volatility : Decimal
  funding_rate_zscore : Decimal
  regime_id : String
  minute : DateTimeUtc
deriving DecidableEq, Repr

/-- crates/common: `HardLimits`. -/
structure HardLimits where
  max_total_capital : Decimal
  max_single_position_pct : Decimal
  max_single_trade_risk_pct : Decimal
  max_total_exposure_pct : Decimal
  max_daily_loss : Decimal
  max_weekly_loss : Decimal
  max_drawdown_from_peak_pct : Decimal
deriving DecidableEq, Repr

/-- crates/common: `KillSwitches`. -/
structure KillSwitches where
  daily_loss_halt : Bool
  weekly_loss_halt : Bool
  drawdown_halt : Bool
  manual_halt : Bool
deriving DecidableEq, Repr

/-- crates/common: `DeadManSwitch`. -/
structure DeadManSwitch where
  enabled : Bool
  timeout_minutes : Int
  action : String
deriving DecidableEq, Repr

/-- crates/common: `RestrictedWindow`. -/
structure RestrictedWindow where
  day_of_week : Option Nat
  hour_start_utc : Option Nat
  hour_end_utc : Option Nat
deriving DecidableEq, Repr

/-- crates/common: `SafetyConfig`. -/
structure SafetyConfig where
  hard_limits : HardLimits
  kill_switches : KillSwitches
  dead_man_switch : Option DeadManSwitch
  restricted_windows : List RestrictedWindow
deriving DecidableEq, Repr

/-- gate/state.rs: `Position`. -/
structure Position where
  id : String
  strategy : String
  symbol : String
  side : Side
  size : Decimal
  entry_price : Decimal
  entry_time : DateTimeUtc
  thesis_slug : String
  stop_price : Option Decimal
deriving DecidableEq, Repr

/-- gate/state.rs: `GateState`.  The two `HashMap<String, _>` fields are
embedded as association lists with distinct keys. -/
structure GateState where
  account_value : Decimal
  cash : Decimal
  equity_peak : Decimal
  manual_halt : Bool
  orders : List (String × Order)
  positions : List (String × Position)
  fills : List Fill
  can_trade : Bool
deriving DecidableEq, Repr

/-- gate/state.rs: `GateState::default`. -/
def GateState.default : GateState where
  account_value := 10000
  cash := 10000
  equity_peak := 10000
  manual_halt := false
  orders := []
  positions := []
  fills := []
  can_trade := true

/-- The current wall clock as read by `Utc::now()`:
`weekday` is `num_days_from_monday()` (0 = Monday), `hour` is `hour()`. -/
structure Clock where
  weekday : Nat
  hour : Nat
deriving DecidableEq, Repr

/-- gate/state.rs: `GateState::portfolio_state`.  `now` stands for the
`Utc::now()` calls (date for the daily-fill filter, `updated_at`). -/
def GateState.portfolio_state (s : GateState) (now : DateTimeUtc) : PortfolioState :=
  let exposure : Decimal :=
    (s.positions.map (fun e => e.2.entry_price * e.2.size)).sum
  let daily : Decimal :=
    ((s.fills.filter
        (fun f => DateTimeUtc.date_naive f.filled_at == DateTimeUtc.date_naive now)).map
      (fun f => if f.is_entry then 0 else f.size * f.price / 1000)).sum
  let weekly := daily
  let drawdown : Decimal :=
    if 0 < s.equity_peak then (s.equity_peak - s.account_value) / s.equity_peak else 0
  { account_value := s.account_value
    available_cash := s.cash
    total_exposure := exposure
    open_position_count := s.positions.length
    daily_pnl := daily
    weekly_pnl := weekly
    drawdown_from_peak := drawdown
    updated_at := now }

/-- gate/state.rs: `GateState::add_fill`. -/
def GateState.add_fill (s : GateState) (fill : Fill) : GateState :=
  let cash' : Decimal :=
    if fill.is_entry then s.cash - (fill.price * fill.size + fill.fee)
    else s.cash + (fill.price * fill.size - fill.fee)
  { s with
    cash := cash'
    fills := s.fills ++ [fill]
    equity_peak :=
      if s.equity_peak < s.account_value then s.account_value else s.equity_peak }

/-- gate/risk.rs: the `simple(name, passed, value, limit)` helper. -/
def simple (name : String) (passed : Bool) (value limit : Decimal) : CheckResult :=
  { check_name := name
    passed := passed
    value := value
    limit := limit
    source := "safety.yaml" }

/-- gate/risk.rs: `restricted_window_active`; the `Utc::now()` weekday/hour
reads are supplied by `clock`. -/
def restricted_window_active (config : SafetyConfig) (clock : Clock) : Bool :=
  config.restricted_windows.any (fun window =>
    (match window.day_of_week with
     | some day => day == clock.weekday
     | none => true)
    &&
    (let start := window.hour_start_utc.getD 0
     let stop := window.hour_end_utc.getD 23
     start ≤ clock.hour && clock.hour ≤ stop))

/-- gate/risk.rs: `validate_request`. -/
def validate_request (req : GateRequest) (config : SafetyConfig)
    (portfolio : PortfolioState) (market_price : Decimal) (clock : Clock) :
    List CheckResult :=
  match req with
  | GateRequest.SubmitOrder _ _ side size _ _ _ _ planned_entry planned_stop =>
    let entry_price := if 0 < planned_entry then planned_entry else market_price
    let risk := |entry_price - planned_stop| * size
    let max_risk :=
      config.hard_limits.max_single_trade_risk_pct * config.hard_limits.max_total_capital
    let c1 := simple "max_single_trade_risk" (risk ≤ max_risk) risk max_risk
    let single_pos := entry_price * size
    let single_pos_limit :=
      config.hard_limits.max_single_position_pct * config.hard_limits.max_total_capital
    let c2 := simple "max_single_position" (single_pos ≤ single_pos_limit)
      single_pos single_pos_limit
    let total_exposure := portfolio.total_exposure + single_pos
    let total_exposure_limit :=
      config.hard_limits.max_total_exposure_pct * config.hard_limits.max_total_capital
    let c3 := simple "max_total_exposure" (total_exposure ≤ total_exposure_limit)
      total_exposure total_exposure_limit
    let c4 := simple "liquidity_check" (50 < single_pos) single_pos 50
    let c5 := simple "spread_check" true (1/1000) (1/100)
    let drawdown_ok :=
      portfolio.drawdown_from_peak ≤ config.hard_limits.max_drawdown_from_peak_pct
    let c6 := simple "drawdown_halt" drawdown_ok portfolio.drawdown_from_peak
      config.hard_limits.max_drawdown_from_peak_pct
    let daily_ok :=
      if config.kill_switches.daily_loss_halt then
        -config.hard_limits.max_daily_loss ≤ portfolio.daily_pnl
      else true
    let c7 := simple "daily_loss_halt" daily_ok portfolio.daily_pnl
      (-config.hard_limits.max_daily_loss)
    let weekly_ok :=
      if config.kill_switches.weekly_loss_halt then
        -config.hard_limits.max_weekly_loss ≤ portfolio.weekly_pnl
      else true
    let c8 := simple "weekly_loss_halt" weekly_ok portfolio.weekly_pnl
      (-config.hard_limits.max_weekly_loss)
    let restricted := restricted_window_active config clock
    let c9 := simple "time_window_restriction" (!restricted)
      (if restricted then 1 else 0) 1
    let stop_ok :=
      match side with
      | Side.Buy => planned_stop < planned_entry
      | Side.Sell => planned_entry < planned_stop
    let c10 := simple "stop_order_valid" stop_ok (if stop_ok then 1 else 0) 1
    let c11 : CheckResult :=
      { check_name := "event_overlap_acknowledged"
        passed := true
        value := 1
        limit := 1
        source := "safety.yaml" }
    [c1, c2, c3, c4, c5, c6, c7, c8, c9, c10, c11]
  | _ => []

/-- gate/rule_engine.rs: `Operator`. -/
inductive Operator
  | Eq
  | Neq
  | Gt
  | Gte
  | Lt
  | Lte
deriving DecidableEq, Repr

/-- gate/rule_engine.rs: `Condition`.  `value` is a `serde_json::Value`;
only its `as_f64()` view is ever used, so it is embedded as `Option ℚ`
(`none` for a non-numeric value). -/
structure Condition where
  field : String
  operator : Operator
  value : Option Decimal
deriving DecidableEq, Repr

/-- gate/rule_engine.rs: `RuleAction`. -/
inductive RuleAction
  | Reject
  | Warn
  | ReduceSize
deriving DecidableEq, Repr

/-- gate/rule_engine.rs: `RuleFile`. -/
structure RuleFile where
  id : String
  status : String
  strategy : Option String
  conditions : List Condition
  action : Option RuleAction
  message : Option String
deriving DecidableEq, Repr

/-- gate/rule_engine.rs: `EvaluatedRule`. -/
structure EvaluatedRule where
  id : String
  action : RuleAction
deriving DecidableEq, Repr

/-- gate/rule_engine.rs: `compare` (`value.as_f64().unwrap_or(0.0)` becomes
`getD 0`). -/
def compare (lhs : Decimal) (op : Operator) (rhs_val : Option Decimal) : Bool :=
  let rhs := rhs_val.getD 0
  match op with
  | Operator.Eq => |lhs - rhs| < 1/1000000000
  | Operator.Neq => 1/1000000000 ≤ |lhs - rhs|
  | Operator.Gt => rhs < lhs
  | Operator.Gte => rhs ≤ lhs
  | Operator.Lt => lhs < rhs
  | Operator.Lte => lhs ≤ rhs

/-- gate/rule_engine.rs: `resolve_field`; the `Utc::now()` weekday/hour reads
are supplied by `clock` (`number_from_monday() - 1` equals `clock.weekday`). -/
def resolve_field (field : String) (req : GateRequest) (market : MarketState)
    (open_positions : Nat) (clock : Clock) : Option Decimal :=
  match field with
  | "market.price" => some market.price
  | "market.funding_rate_zscore" => some market.funding_rate_zscore
  | "market.volume_ratio" => some market.volume_ratio
  | "market.volatility" => some market.realized_volatility
  | "market.spread_pct" => some market.spread_pct
  | "time.day_of_week" => some (clock.weekday : Decimal)
  | "time.hour_utc" => some (clock.hour : Decimal)
  | "portfolio.total_exposure_pct" => some ((open_positions : Decimal) * (1/100))
  | "portfolio.open_position_count" => some (open_positions : Decimal)
  | "order.size" =>
    match req with
    | GateRequest.SubmitOrder _ _ _ size _ _ _ _ _ _ => some size
    | _ => none
  | "order.notional" =>
    match req with
    | GateRequest.SubmitOrder _ _ _ size _ _ _ _ planned_entry _ =>
      some (size * planned_entry)
    | _ => none
  | "order.side" =>
    match req with
    | GateRequest.SubmitOrder _ _ side _ _ _ _ _ _ _ =>
      match side with
      | Side.Buy => some 1
      | Side.Sell => some (-1)
    | _ => none
  | "order.risk_pct" =>
    match req with
    | GateRequest.SubmitOrder _ _ _ size _ _ _ _ planned_entry planned_stop =>
      some (|planned_entry - planned_stop| * size)
    | _ => none
  | _ => none

/-- gate/rule_engine.rs: one condition of a rule, as evaluated inside
`RuleEngine::evaluate` (`resolve_field(..).map(compare).unwrap_or(false)`). -/
def condition_true (c : Condition) (req : GateRequest) (market : MarketState)
    (position_count : Nat) (clock : Clock) : Bool :=
  match resolve_field c.field req market position_count clock with
  | some lhs => compare lhs c.operator c.value
  | none => false

/-- gate/rule_engine.rs: the per-rule body of `RuleEngine::evaluate`'s
`filter_map` closure. -/
def evalRule (rule : RuleFile) (req : GateRequest) (market : MarketState)
    (position_count : Nat) (clock : Clock) : Option EvaluatedRule :=
  let strategy_mismatch : Bool :=
    match req, rule.strategy with
    | GateRequest.SubmitOrder strategy _ _ _ _ _ _ _ _ _, some filt =>
      filt != strategy
    | _, _ => false
  if strategy_mismatch then none
  else if rule.conditions.all
      (fun c => condition_true c req market position_count clock) then
    some { id := rule.id, action := rule.action.getD RuleAction.Warn }
  else none

/-- gate/rule_engine.rs: `RuleEngine::evaluate` (the engine's loaded rules
are passed as the list `rules`). -/
def RuleEngine.evaluate (rules : List RuleFile) (req : GateRequest)
    (market : MarketState) (position_count : Nat) (clock : Clock) :
    List EvaluatedRule :=
  rules.filterMap (fun rule => evalRule rule req market position_count clock)

/-- gate/validator.rs: `RiskContext`. -/
structure RiskContext where
  can_trade : Bool
  checks : List CheckResult
deriving DecidableEq, Repr

/-- gate/validator.rs: `apply_rule_hit`, threading the `(checks, can_trade)`
pair that the Rust code mutates in place. -/
def apply_rule_hit (hit : EvaluatedRule) (acc : List CheckResult × Bool) :
    List CheckResult × Bool :=
  match hit.action with
  | RuleAction.Reject =>
    (acc.1 ++ [{ check_name := "rule:" ++ hit.id
                 passed := false
                 value := 1
                 limit := 0
                 source := "rule-dsl" }], false)
  | RuleAction.Warn =>
    (acc.1 ++ [{ check_name := "rule:" ++ hit.id
                 passed := true
                 value := 1
                 limit := 1
                 source := "rule-dsl" }], acc.2)
  | RuleAction.ReduceSize =>
    (acc.1 ++ [{ check_name := "rule:" ++ hit.id
                 passed := true
                 value := 1
                 limit := 1
                 source := "rule-dsl" }], acc.2)

/-- gate/validator.rs: `GateValidator::evaluate` (the validator's rule
engine is passed as the list `rules`; the Rust function's `Result` wrapper
is omitted because it never returns `Err`). -/
def GateValidator.evaluate (rules : List RuleFile) (req : GateRequest)
    (state : GateState) (checks : List CheckResult) (market : MarketState)
    (clock : Clock) : RiskContext :=
  let can_trade0 : Bool := !(!state.can_trade || state.manual_halt)
  let rule_hits := RuleEngine.evaluate rules req market state.positions.length clock
  let folded := rule_hits.foldl (fun acc hit => apply_rule_hit hit acc)
    (checks, can_trade0)
  let can_trade1 := if folded.1.any (fun c => !c.passed) then false else folded.2
  { can_trade := can_trade1, checks := folded.1 }

/-- crates/common: `GateResponse` (tagged union on `response_type` with
`payload` content). -/
inductive GateResponse
  | Accepted (order_id : String) (checks_passed : List CheckResult)
  | Rejected (checks_failed : List CheckResult)
  | Portfolio (state : PortfolioState)
  | Orders (orders : List Order)
  | Fills (fills : List Fill)
  | MarketData (market : MarketState)
  | ProposalAcknowledged (proposal_id : String) (auto_approved : Bool)
      (reason : String)
  | Error (message : String)
deriving DecidableEq, Repr

/-- gate/exchange.rs: `ExchangeResult` (the `raw` response-metadata field,
a `serde_json::Value` never read by the gate, is omitted). -/
structure ExchangeResult where
  exchange_order_id : Option String
  executed_price : Decimal
  executed_size : Decimal
  fee : Decimal
  filled : Bool
deriving DecidableEq, Repr

/-- gate/exchange.rs: the dry-run branch of `ExchangeClient::submit_order`.
In this exact-arithmetic model every value is finite, so the Rust
`!is_finite()` disjuncts of the two guards are vacuous. -/
def ExchangeClient.submit_order_dry_run (client_order_id : String)
    (size planned_entry : Decimal) : Except String ExchangeResult :=
  if size ≤ 0 then Except.error "invalid order size"
  else if planned_entry ≤ 0 then Except.error "invalid planned entry"
  else Except.ok
    { exchange_order_id := some ("dry_run_" ++ client_order_id)
      executed_price := planned_entry
      executed_size := size
      fee := |planned_entry * size * (1/1000)|
      filled := true }

/-- `HashMap::insert` on the association-list embedding: replace any entry
with the key, append the new binding. -/
def assoc_insert (key : String) (v : α) (l : List (String × α)) :
    List (String × α) :=
  (l.filter (fun e => e.1 != key)) ++ [(key, v)]

/-- gate/main.rs: `find_matching_exit_position`.  Mirrors the source: the
first position matching strategy+symbol with the opposite side is found and
then `remove_entry`d from the map; the found entry and the remaining map are
returned. -/
def find_matching_exit_position (positions : List (String × Position))
    (strategy symbol : String) (entry_side : Side) :
    Option ((String × Position) × List (String × Position)) :=
  let exit_side := Side.opposite entry_side
  match positions.find? (fun e =>
      e.2.strategy == strategy && e.2.symbol == symbol && e.2.side == exit_side) with
  | some e => some (e, positions.filter (fun x => x.1 != e.1))
  | none => none

/-- The destructured fields of a `SubmitOrder` request, as bound by the
`SubmitOrder { .. }` arm of `process_request`. -/
structure SubmitParams where
  strategy : String
  symbol : String
  side : Side
  size : Decimal
  order_type : OrderType
  price : Option Decimal
  stop_price : Option Decimal
  thesis_slug : String
  planned_entry : Decimal
  planned_stop : Decimal
deriving DecidableEq, Repr

/-- gate/main.rs: the `request` the SubmitOrder arm rebuilds with
`price: Some(planned_entry)`. -/
def SubmitParams.request (p : SubmitParams) : GateRequest :=
  GateRequest.SubmitOrder p.strategy p.symbol p.side p.size p.order_type
    (some p.planned_entry) p.stop_price p.thesis_slug p.planned_entry
    p.planned_stop

/-- gate/main.rs: the `stop_order_verified` check the SubmitOrder arm pushes
after approval. -/
def stop_order_verified_check (p : SubmitParams) : CheckResult :=
  { check_name := "stop_order_verified"
    passed := p.stop_price.isSome
    value := if p.stop_price.isSome then 1 else 0
    limit := 1
    source := "gate" }

/-- gate/main.rs: the risk context the SubmitOrder arm computes
(`validate_request` then `validator.evaluate`). -/
def submit_context (rules : List RuleFile) (safety : SafetyConfig)
    (market : MarketState) (clock : Clock) (now : DateTimeUtc)
    (st : GateState) (p : SubmitParams) : RiskContext :=
  let request := SubmitParams.request p
  let checks := validate_request request safety
    ( GateState.portfolio_state st now) market.price clock
  GateValidator.evaluate rules request st checks market clock

/-- gate/main.rs: the `SubmitOrder` arm of `process_request`.  The audit
and database writes are external side effects (logged-and-ignored in the
source) and do not touch the returned state; the exchange call is the
explicit argument `exec`, applied to the desired entry price; `order_id`
stands for the fresh `Uuid::new_v4()` and `now` for `Utc::now()`. -/
def process_submit (rules : List RuleFile) (safety : SafetyConfig)
    (market : MarketState) (clock : Clock) (now : DateTimeUtc)
    (order_id : String) (exec : Decimal → Except String ExchangeResult)
    (st : GateState) (p : SubmitParams) : GateResponse × GateState :=
  let risk_ctx := submit_context rules safety market clock now st p
  if !risk_ctx.can_trade then
    (GateResponse.Rejected (risk_ctx.checks.filter (fun c => !c.passed)), st)
  else
    let checks := risk_ctx.checks ++ [stop_order_verified_check p]
    let desired_entry := if 0 < p.planned_entry then p.planned_entry else market.price
    match exec desired_entry with
    | Except.error err =>
      (GateResponse.Error ("exchange submit failed: " ++ err), st)
    | Except.ok execution =>
      let fill_price := max execution.executed_price 1
      let fee := execution.fee
      match find_matching_exit_position st.positions p.strategy p.symbol p.side with
      | some (found, remaining) =>
        let pos_id := found.1
        let pos := found.2
        let close_size := min p.size pos.size
        let realized := (fill_price - pos.entry_price) * close_size *
          (if p.side = Side.Buy then 1 else -1)
        let st1 := { st with
          cash := st.cash + (realized - fee)
          account_value := st.account_value + realized
          positions := remaining }
        let exit_fill : Fill :=
          { order_id := order_id
            symbol := pos.symbol
            side := p.side
            size := close_size
            price := fill_price
            fee := fee
            filled_at := now
            strategy := pos.strategy
            thesis_slug := pos.thesis_slug
            is_entry := false }
        let st2 := { st1 with fills := st1.fills ++ [exit_fill] }
        let st3 := GateState.add_fill st2 exit_fill
        let st4 :=
          if pos.size - 1/1000000000000 ≤ close_size then
            { st3 with positions := st3.positions.filter (fun x => x.1 != pos_id) }
          else st3
        (GateResponse.Accepted order_id checks, st4)
      | none =>
        let order : Order :=
          { id := order_id
            strategy := p.strategy
            symbol := p.symbol
            side := p.side
            size := p.size
            order_type := p.order_type
            requested_price := some fill_price
            stop_price := p.stop_price
            placed_at := now
            status := OrderStatus.Filled
            thesis_slug := p.thesis_slug }
        let st1 := { st with orders := assoc_insert order.id order st.orders }
        let position : Position :=
          { id := order_id
            strategy := p.strategy
            symbol := p.symbol
            side := p.side
            size := p.size
            entry_price := fill_price
            entry_time := now
            thesis_slug := p.thesis_slug
            stop_price := p.stop_price }
        let st2 := { st1 with positions := assoc_insert order_id position st1.positions }
        let entry_fill : Fill :=
          { order_id := order_id
            symbol := p.symbol
            side := p.side
            size := p.size
            price := fill_price
            fee := fee
            filled_at := now
            strategy := p.strategy
            thesis_slug := p.thesis_slug
            is_entry := true }
        let st3 := { st2 with fills := st2.fills ++ [entry_fill] }
        let st4 := GateState.add_fill st3 entry_fill
        (GateResponse.Accepted order_id checks, st4)

/-- A permissive safety configuration used by the concrete scenarios:
huge capital, 100% ratios, kill switches off, no restricted windows. -/
def wide_safety : SafetyConfig :=
  { hard_limits :=
      { max_total_capital := 1000000
        max_single_position_pct := 1
        max_single_trade_risk_pct := 1
        max_total_exposure_pct := 1
        max_daily_loss := 1000000
        max_weekly_loss := 1000000
        max_drawdown_from_peak_pct := 1 }
    kill_switches :=
      { daily_loss_halt := false
        weekly_loss_halt := false
        drawdown_halt := false
        manual_halt := false }
    dead_man_switch := none
    restricted_windows := [] }

/-- The market snapshot used by the concrete scenarios (the `seed_market`
values of gate/main.rs). -/
def seed_market (symbol : String) : MarketState :=
  { symbol := symbol
    price := 10000
    spread_pct := 1/1000
    volume_ratio := 1
    realized_volatility := 7/20
    funding_rate_zscore := 0
    regime_id := "ranging"
    minute := ⟨"2026-01-01T00:00:00Z"⟩ }

/-- Scenario of §8 of the spec: an open long, strategy S, symbol X,
size 1, entry 100. -/
def scenario_pos : Position :=
  { id := "p1"
    strategy := "S"
    symbol := "X"
    side := Side.Buy
    size := 1
    entry_price := 100
    entry_time := ⟨"2026-01-01T00:00:00Z"⟩
    thesis_slug := "t"
    stop_price := none }

/-- Default ledger seeded with the scenario position. -/
def scenario_state : GateState :=
  { GateState.default with positions := [("p1", scenario_pos)] }

/-- The §8 exit submission: Sell, size 1, strategy S, symbol X,
planned entry 110 (planned stop 120 so the stop check passes). -/
def scenario_params : SubmitParams :=
  { strategy := "S"
    symbol := "X"
    side := Side.Sell
    size := 1
    order_type := OrderType.Limit
    price := none
    stop_price := some 120
    thesis_slug := "t"
    planned_entry := 110
    planned_stop := 120 }

/-- The full §8 scenario run through the SubmitOrder pipeline with the
dry-run execution adapter. -/
def scenario_result : GateResponse × GateState :=
  process_submit [] wide_safety (seed_market "X") ⟨2, 12⟩
    ⟨"2026-01-02T12:00:00Z"⟩ "o1"
    (fun entry => ExchangeClient.submit_order_dry_run "o1" scenario_params.size entry)
    scenario_state scenario_params

/-- The check that `apply_rule_hit` records for a rule hit. -/
def rule_hit_check (hit : EvaluatedRule) : CheckResult :=
  match hit.action with
  | RuleAction.Reject =>
    { check_name := "rule:" ++ hit.id
      passed := false
      value := 1
      limit := 0
      source := "rule-dsl" }
  | RuleAction.Warn =>
    { check_name := "rule:" ++ hit.id
      passed := true
      value := 1
      limit := 1
      source := "rule-dsl" }
  | RuleAction.ReduceSize =>
    { check_name := "rule:" ++ hit.id
      passed := true
      value := 1
      limit := 1
      source := "rule-dsl" }

lemma apply_rule_hit_eq (hit : EvaluatedRule) (acc : List CheckResult × Bool) :
    apply_rule_hit hit acc =
      (acc.1 ++ [rule_hit_check hit],
       acc.2 && decide (hit.action ≠ RuleAction.Reject)) := by
  cases hit with
  | mk id action =>
    cases action <;> simp [apply_rule_hit, rule_hit_check]

lemma rule_hit_check_passed (hit : EvaluatedRule) :
    (rule_hit_check hit).passed = decide (hit.action ≠ RuleAction.Reject) := by
  cases hit with
  | mk id action => cases action <;> rfl

lemma foldl_rule_hits (hits : List EvaluatedRule) (cs : List CheckResult)
    (b : Bool) :
    hits.foldl (fun acc hit =>
        (acc.1 ++ [rule_hit_check hit],
         acc.2 && decide (hit.action ≠ RuleAction.Reject))) (cs, b)
      = (cs ++ hits.map rule_hit_check,
         b && hits.all (fun h => decide (h.action ≠ RuleAction.Reject))) := by
  induction hits generalizing cs b with
  | nil => simp
  | cons h t ih =>
    simp only [List.foldl_cons, List.map_cons, List.all_cons]
    rw [ih]
    simp [Bool.and_assoc]

lemma foldl_apply_rule_hit (hits : List EvaluatedRule) (cs : List CheckResult)
    (b : Bool) :
    hits.foldl (fun acc hit => apply_rule_hit hit acc) (cs, b)
      = (cs ++ hits.map rule_hit_check,
         b && hits.all (fun h => decide (h.action ≠ RuleAction.Reject))) := by
  have hf : (fun (acc : List CheckResult × Bool) (hit : EvaluatedRule) =>
      apply_rule_hit hit acc)
      = fun acc hit =>
        (acc.1 ++ [rule_hit_check hit],
         acc.2 && decide (hit.action ≠ RuleAction.Reject)) := by
    funext acc hit
    exact apply_rule_hit_eq hit acc
  rw [hf, foldl_rule_hits]

/-- claim C4: the final `can_trade` verdict of `GateValidator::evaluate` is
true exactly when the ledger's global `can_trade` flag is on, `manual_halt`
is off, every aggregated hard-limit check passed, and no rule hit carries
the reject action; in particular one reject hit forces `can_trade = false`
whatever the hard-limit checks say. -/
theorem C4_can_trade_iff (rules : List RuleFile) (req : GateRequest)
    (st : GateState) (checks : List CheckResult) (market : MarketState)
    (clock : Clock) :
    (GateValidator.evaluate rules req st checks market clock).can_trade = true ↔
      (st.can_trade = true ∧ st.manual_halt = false ∧
       (∀ c ∈ checks, c.passed = true) ∧
       (∀ hit ∈ RuleEngine.evaluate rules req market st.positions.length clock,
          hit.action ≠ RuleAction.Reject)) := by
  simp only [GateValidator.evaluate]
  rw [foldl_apply_rule_hit]
  split_ifs with h
  · simp only [Bool.false_eq_true, false_iff]
    rw [List.any_append] at h
    simp only [List.any_map, Function.comp_def, rule_hit_check_passed, Bool.or_eq_true,
      List.any_eq_true, List.mem_map, exists_exists_and_eq_and,
      Bool.not_eq_true', decide_eq_false_iff_not, not_not] at h
    rintro ⟨-, -, hall, hnone⟩
    rcases h with ⟨c, hc, hcp⟩ | ⟨hit, hmem, hact⟩
    · exact absurd (hall c hc) (by simp [hcp])
    · exact hnone hit hmem hact
  · rw [List.any_append] at h
    simp only [List.any_map, Function.comp_def, rule_hit_check_passed, Bool.or_eq_true,
      List.any_eq_true, List.mem_map, exists_exists_and_eq_and,
      Bool.not_eq_true', decide_eq_false_iff_not, not_not,
      not_or, not_exists] at h
    obtain ⟨hnofail, hnorej⟩ := h
    have hall : ∀ c ∈ checks, c.passed = true := by
      intro c hc
      cases hpc : c.passed with
      | true => rfl
      | false => exact absurd ⟨hc, hpc⟩ (hnofail c)
    have hnone : ∀ hit ∈ RuleEngine.evaluate rules req market st.positions.length clock,
        hit.action ≠ RuleAction.Reject := by
      intro hit hm hact
      exact hnorej hit ⟨hm, hact⟩
    have hallb : (RuleEngine.evaluate rules req market st.positions.length clock).all
        (fun h => decide (h.action ≠ RuleAction.Reject)) = true := by
      rw [List.all_eq_true]
      intro hit hm
      exact decide_eq_true (hnone hit hm)
    simp only [hallb, Bool.and_true, Bool.not_eq_true', Bool.or_eq_false_iff,
      Bool.not_eq_false', Bool.not_eq_true]
    tauto

/-- claim C6: for every SubmitOrder request and every configuration,
portfolio snapshot, market price and clock, the hard-limit evaluator
returns exactly eleven checks, in the fixed order, each tagged with source
"safety.yaml"; the entry price feeding the risk and position-size checks is
the planned entry if positive, else the current market price. -/
theorem C6_eleven_checks (strategy symbol : String) (side : Side)
    (size : Decimal) (order_type : OrderType) (price stop_price : Option Decimal)
    (thesis_slug : String) (planned_entry planned_stop : Decimal)
    (config : SafetyConfig) (portfolio : PortfolioState) (market_price : Decimal)
    (clock : Clock) :
    let checks := validate_request
      (GateRequest.SubmitOrder strategy symbol side size order_type price
        stop_price thesis_slug planned_entry planned_stop)
      config portfolio market_price clock
    let entry_price := if 0 < planned_entry then planned_entry else market_price
    checks.length = 11 ∧
    checks.map (fun c => c.check_name) =
      ["max_single_trade_risk", "max_single_position", "max_total_exposure",
       "liquidity_check", "spread_check", "drawdown_halt", "daily_loss_halt",
       "weekly_loss_halt", "time_window_restriction", "stop_order_valid",
       "event_overlap_acknowledged"] ∧
    (∀ c ∈ checks, c.source = "safety.yaml") ∧
    (checks.map (fun c => c.value))[0]? = some (|entry_price - planned_stop| * size) ∧
    (checks.map (fun c => c.value))[1]? = some (entry_price * size) := by
  refine ⟨?_, ?_, ?_, ?_, ?_⟩ <;>
    simp [validate_request, simple]

/-- claim C7: a condition whose field name does not resolve in the fixed
symbol table (for any operator and comparison value) evaluates false, and a
rule containing such a condition produces no hit. -/
theorem C7_unresolvable_field_blocks_rule (rule : RuleFile) (c : Condition)
    (req : GateRequest) (market : MarketState) (position_count : Nat)
    (clock : Clock) (hc : c ∈ rule.conditions)
    (hres : resolve_field c.field req market position_count clock = none) :
    condition_true c req market position_count clock = false ∧
    evalRule rule req market position_count clock = none := by
  have hct : condition_true c req market position_count clock = false := by
    unfold condition_true
    rw [hres]
  refine ⟨hct, ?_⟩
  unfold evalRule
  have hall : rule.conditions.all
      (fun c => condition_true c req market position_count clock) = false := by
    rw [List.all_eq_false]
    exact ⟨c, hc, by simp [hct]⟩
  simp [hall]

/-- Witness for C7: the field `order.size` does not resolve against a
`GetPortfolio` request, so a reject rule conditioned on it never hits. -/
theorem C7_unresolvable_field_blocks_rule_witness :
    condition_true ⟨"order.size", Operator.Gt, some 1⟩ GateRequest.GetPortfolio
      (seed_market "X") 0 ⟨0, 12⟩ = false ∧
    evalRule
      { id := "r1"
        status := "active"
        strategy := none
        conditions := [⟨"order.size", Operator.Gt, some 1⟩]
        action := some RuleAction.Reject
        message := none }
      GateRequest.GetPortfolio (seed_market "X") 0 ⟨0, 12⟩ = none :=
  C7_unresolvable_field_blocks_rule
    { id := "r1"
      status := "active"
      strategy := none
      conditions := [⟨"order.size", Operator.Gt, some 1⟩]
      action := some RuleAction.Reject
      message := none }
    ⟨"order.size", Operator.Gt, some 1⟩ GateRequest.GetPortfolio
    (seed_market "X") 0 ⟨0, 12⟩ (by simp) rfl

lemma can_trade_false_of_failing (rules : List RuleFile) (req : GateRequest)
    (st : GateState) (checks : List CheckResult) (market : MarketState)
    (clock : Clock)
    (h : ∃ c ∈ (GateValidator.evaluate rules req st checks market clock).checks,
      c.passed = false) :
    (GateValidator.evaluate rules req st checks market clock).can_trade = false := by
  obtain ⟨c, hc, hcp⟩ := h
  simp only [GateValidator.evaluate] at hc ⊢
  have hany : ((checks, !(!st.can_trade || st.manual_halt)).1 ++
      (RuleEngine.evaluate rules req market st.positions.length clock).map
        rule_hit_check).any (fun c => !c.passed) = true := by
    rw [List.any_eq_true]
    refine ⟨c, ?_, by simp [hcp]⟩
    rw [foldl_apply_rule_hit] at hc
    simpa using hc
  rw [foldl_apply_rule_hit]
  simp only [hany]
  simp

/-- claim C5: whenever the risk context built for a SubmitOrder contains a
failing check, the response is `Rejected` and its `checks_failed` list is
exactly the failing checks of the aggregated list: every failing check is
in it, and no passing check ever is. -/
theorem C5_rejected_exactly_failing (rules : List RuleFile)
    (safety : SafetyConfig) (market : MarketState) (clock : Clock)
    (now : DateTimeUtc) (order_id : String)
    (exec : Decimal → Except String ExchangeResult) (st : GateState)
    (p : SubmitParams)
    (h : ∃ c ∈ (submit_context rules safety market clock now st p).checks,
      c.passed = false) :
    (process_submit rules safety market clock now order_id exec st p).1
      = GateResponse.Rejected
          ((submit_context rules safety market clock now st p).checks.filter
            (fun c => !c.passed)) ∧
    (∀ c ∈ (submit_context rules safety market clock now st p).checks.filter
        (fun c => !c.passed), c.passed = false) ∧
    (∀ c ∈ (submit_context rules safety market clock now st p).checks,
      c.passed = false →
        c ∈ (submit_context rules safety market clock now st p).checks.filter
          (fun c => !c.passed)) := by
  have hcan : (submit_context rules safety market clock now st p).can_trade = false :=
    can_trade_false_of_failing rules (SubmitParams.request p) st
      (validate_request (SubmitParams.request p) safety
        ( GateState.portfolio_state st now) market.price clock) market clock h
  refine ⟨?_, ?_, ?_⟩
  · simp only [process_submit, hcan]
    simp
  · intro c hcmem
    rw [List.mem_filter] at hcmem
    simpa using hcmem.2
  · intro c hcmem hcp
    rw [List.mem_filter]
    exact ⟨hcmem, by simp [hcp]⟩

/-- A submission whose notional (10) is below the $50 liquidity floor, so
the liquidity check fails. -/
def reject_params : SubmitParams :=
  { strategy := "S"
    symbol := "X"
    side := Side.Buy
    size := 1
    order_type := OrderType.Limit
    price := none
    stop_price := some 9
    thesis_slug := "t"
    planned_entry := 10
    planned_stop := 9 }

/-- Witness for C5: the concrete below-liquidity submission is rejected with
exactly the failing checks. -/
theorem C5_rejected_exactly_failing_witness :
    (process_submit [] wide_safety (seed_market "X") ⟨0, 12⟩
        ⟨"2026-01-02T12:00:00Z"⟩ "o1"
        (fun entry => ExchangeClient.submit_order_dry_run "o1" 1 entry)
        GateState.default reject_params).1
      = GateResponse.Rejected
          ((submit_context [] wide_safety (seed_market "X") ⟨0, 12⟩
              ⟨"2026-01-02T12:00:00Z"⟩ GateState.default reject_params).checks.filter
            (fun c => !c.passed)) ∧
    (∀ c ∈ (submit_context [] wide_safety (seed_market "X") ⟨0, 12⟩
        ⟨"2026-01-02T12:00:00Z"⟩ GateState.default reject_params).checks.filter
          (fun c => !c.passed), c.passed = false) ∧
    (∀ c ∈ (submit_context [] wide_safety (seed_market "X") ⟨0, 12⟩
        ⟨"2026-01-02T12:00:00Z"⟩ GateState.default reject_params).checks,
      c.passed = false →
        c ∈ (submit_context [] wide_safety (seed_market "X") ⟨0, 12⟩
            ⟨"2026-01-02T12:00:00Z"⟩ GateState.default reject_params).checks.filter
          (fun c => !c.passed)) :=
  C5_rejected_exactly_failing [] wide_safety (seed_market "X") ⟨0, 12⟩
    ⟨"2026-01-02T12:00:00Z"⟩ "o1"
    (fun entry => ExchangeClient.submit_order_dry_run "o1" 1 entry)
    GateState.default reject_params
    (by
      norm_num [submit_context, SubmitParams.request, validate_request, simple,
        restricted_window_active, GateValidator.evaluate, RuleEngine.evaluate,
        GateState.portfolio_state, GateState.default, wide_safety, seed_market,
        reject_params])

lemma process_submit_exit_spec (rules : List RuleFile) (safety : SafetyConfig)
    (market : MarketState) (clock : Clock) (now : DateTimeUtc)
    (order_id : String) (exec : Decimal → Except String ExchangeResult)
    (st : GateState) (p : SubmitParams) (found : String × Position)
    (remaining : List (String × Position)) (ex : ExchangeResult)
    (hcan : (submit_context rules safety market clock now st p).can_trade = true)
    (hexec : exec (if 0 < p.planned_entry then p.planned_entry else market.price)
      = Except.ok ex)
    (hfind : find_matching_exit_position st.positions p.strategy p.symbol p.side
      = some (found, remaining)) :
    process_submit rules safety market clock now order_id exec st p =
      (GateResponse.Accepted order_id
        ((submit_context rules safety market clock now st p).checks ++
          [stop_order_verified_check p]),
       let fill_price := max ex.executed_price 1
       let close_size := min p.size found.2.size
       let realized := (fill_price - found.2.entry_price) * close_size *
         (if p.side = Side.Buy then 1 else -1)
       let exit_fill : Fill :=
         { order_id := order_id
           symbol := found.2.symbol
           side := p.side
           size := close_size
           price := fill_price
           fee := ex.fee
           filled_at := now
           strategy := found.2.strategy
           thesis_slug := found.2.thesis_slug
           is_entry := false }
       { st with
         cash := st.cash + (realized - ex.fee) + (fill_price * close_size - ex.fee)
         account_value := st.account_value + realized
         positions :=
           if found.2.size - 1/1000000000000 ≤ close_size then
             remaining.filter (fun x => x.1 != found.1)
           else remaining
         fills := st.fills ++ [exit_fill, exit_fill]
         equity_peak :=
           if st.equity_peak < st.account_value + realized then
             st.account_value + realized
           else st.equity_peak }) := by
  simp only [process_submit, hcan, hexec, hfind, GateState.add_fill]
  split_ifs <;>
    simp_all [Prod.mk.injEq, GateState.mk.injEq, List.append_assoc]

lemma process_submit_entry_spec (rules : List RuleFile) (safety : SafetyConfig)
    (market : MarketState) (clock : Clock) (now : DateTimeUtc)
    (order_id : String) (exec : Decimal → Except String ExchangeResult)
    (st : GateState) (p : SubmitParams) (ex : ExchangeResult)
    (hcan : (submit_context rules safety market clock now st p).can_trade = true)
    (hexec : exec (if 0 < p.planned_entry then p.planned_entry else market.price)
      = Except.ok ex)
    (hfind : find_matching_exit_position st.positions p.strategy p.symbol p.side
      = none) :
    process_submit rules safety market clock now order_id exec st p =
      (GateResponse.Accepted order_id
        ((submit_context rules safety market clock now st p).checks ++
          [stop_order_verified_check p]),
       let fill_price := max ex.executed_price 1
       let entry_fill : Fill :=
         { order_id := order_id
           symbol := p.symbol
           side := p.side
           size := p.size
           price := fill_price
           fee := ex.fee
           filled_at := now
           strategy := p.strategy
           thesis_slug := p.thesis_slug
           is_entry := true }
       let order : Order :=
         { id := order_id
           strategy := p.strategy
           symbol := p.symbol
           side := p.side
           size := p.size
           order_type := p.order_type
           requested_price := some fill_price
           stop_price := p.stop_price
           placed_at := now
           status := OrderStatus.Filled
           thesis_slug := p.thesis_slug }
       let position : Position :=
         { id := order_id
           strategy := p.strategy
           symbol := p.symbol
           side := p.side
           size := p.size
           entry_price := fill_price
           entry_time := now
           thesis_slug := p.thesis_slug
           stop_price := p.stop_price }
       { st with
         cash := st.cash - (fill_price * p.size + ex.fee)
         orders := assoc_insert order_id order st.orders
         positions := assoc_insert order_id position st.positions
         fills := st.fills ++ [entry_fill, entry_fill]
         equity_peak :=
           if st.equity_peak < st.account_value then st.account_value
           else st.equity_peak }) := by
  simp only [process_submit, hcan, hexec, hfind, GateState.add_fill]
  split_ifs <;>
    simp_all [Prod.mk.injEq, GateState.mk.injEq, List.append_assoc]

lemma portfolio_daily_pnl (s : GateState) (now : DateTimeUtc) :
    ( GateState.portfolio_state s now).daily_pnl
      = ((s.fills.filter
            (fun f => DateTimeUtc.date_naive f.filled_at ==
              DateTimeUtc.date_naive now)).map
          (fun f => if f.is_entry then 0 else f.size * f.price / 1000)).sum := rfl

/-- claim C3: every accepted SubmitOrder appends its fill to the in-memory
history twice (one direct push, one inside `add_fill`), so the daily P&L
proxy counts an exit fill twice; on an exit, cash is adjusted once by
realized minus fee and a second time by price times size minus fee. -/
theorem C3_double_fill_recording (rules : List RuleFile)
    (safety : SafetyConfig) (market : MarketState) (clock : Clock)
    (now : DateTimeUtc) (order_id : String)
    (exec : Decimal -> Except String ExchangeResult) (st : GateState)
    (p : SubmitParams) (ex : ExchangeResult)
    (hcan : (submit_context rules safety market clock now st p).can_trade = true)
    (hexec : exec (if 0 < p.planned_entry then p.planned_entry else market.price)
      = Except.ok ex) :
    ∃ f : Fill,
      (process_submit rules safety market clock now order_id exec st p).2.fills
        = st.fills ++ [f, f] ∧
      f.filled_at = now ∧
      ( GateState.portfolio_state
          (process_submit rules safety market clock now order_id exec st p).2
          now).daily_pnl
        = ( GateState.portfolio_state st now).daily_pnl
          + 2 * (if f.is_entry then 0 else f.size * f.price / 1000) ∧
      (∀ found remaining,
        find_matching_exit_position st.positions p.strategy p.symbol p.side
            = some (found, remaining) →
          f.is_entry = false ∧ f.price = max ex.executed_price 1 ∧
          f.size = min p.size found.2.size ∧
          (process_submit rules safety market clock now order_id exec st p).2.cash
            = st.cash
              + ((max ex.executed_price 1 - found.2.entry_price) *
                  min p.size found.2.size *
                  (if p.side = Side.Buy then 1 else -1) - ex.fee)
              + (f.price * f.size - ex.fee)) ∧
      (find_matching_exit_position st.positions p.strategy p.symbol p.side = none →
        f.is_entry = true) := by
  cases hfind : find_matching_exit_position st.positions p.strategy p.symbol p.side with
  | some pr =>
    obtain ⟨found, remaining⟩ := pr
    rw [process_submit_exit_spec rules safety market clock now order_id exec st p
      found remaining ex hcan hexec hfind]
    refine ⟨_, rfl, rfl, ?_, ?_, ?_⟩
    · rw [portfolio_daily_pnl, portfolio_daily_pnl]
      simp [List.filter_append, List.sum_append, two_mul]
    · intro found2 remaining2 hf2
      rw [Option.some.injEq, Prod.mk.injEq] at hf2
      obtain ⟨h1, h2⟩ := hf2
      subst h1
      subst h2
      exact ⟨rfl, rfl, rfl, rfl⟩
    · intro hf2
      exact absurd hf2 (by simp)
  | none =>
    rw [process_submit_entry_spec rules safety market clock now order_id exec st p
      ex hcan hexec hfind]
    refine ⟨_, rfl, rfl, ?_, ?_, ?_⟩
    · rw [portfolio_daily_pnl, portfolio_daily_pnl]
      simp [List.filter_append, List.sum_append, two_mul]
    · intro found2 remaining2 hf2
      exact absurd hf2 (by simp)
    · intro hf2
      rfl

/-- Witness for C3: the §8 exit scenario records its exit fill twice and
adjusts cash twice. -/
theorem C3_double_fill_recording_witness :
    ∃ f : Fill,
      scenario_result.2.fills = scenario_state.fills ++ [f, f] ∧
      f.filled_at = ⟨"2026-01-02T12:00:00Z"⟩ ∧
      ( GateState.portfolio_state scenario_result.2
          ⟨"2026-01-02T12:00:00Z"⟩).daily_pnl
        = ( GateState.portfolio_state scenario_state
            ⟨"2026-01-02T12:00:00Z"⟩).daily_pnl
          + 2 * (if f.is_entry then 0 else f.size * f.price / 1000) ∧
      (∀ found remaining,
        find_matching_exit_position scenario_state.positions
            scenario_params.strategy scenario_params.symbol scenario_params.side
            = some (found, remaining) →
          f.is_entry = false ∧
          f.price = max (110:ℚ) 1 ∧
          f.size = min scenario_params.size found.2.size ∧
          scenario_result.2.cash
            = scenario_state.cash
              + ((max (110:ℚ) 1 - found.2.entry_price) *
                  min scenario_params.size found.2.size *
                  (if scenario_params.side = Side.Buy then 1 else -1) - 11/100)
              + (f.price * f.size - 11/100)) ∧
      (find_matching_exit_position scenario_state.positions
          scenario_params.strategy scenario_params.symbol scenario_params.side
          = none → f.is_entry = true) :=
  C3_double_fill_recording [] wide_safety (seed_market "X") ⟨2, 12⟩
    ⟨"2026-01-02T12:00:00Z"⟩ "o1"
    (fun entry => ExchangeClient.submit_order_dry_run "o1" scenario_params.size entry)
    scenario_state scenario_params
    ⟨some "dry_run_o1", 110, 1, 11/100, true⟩
    (by
      norm_num [submit_context, SubmitParams.request, validate_request, simple,
        restricted_window_active, GateValidator.evaluate, RuleEngine.evaluate,
        GateState.portfolio_state, GateState.default, scenario_state, scenario_pos,
        scenario_params, wide_safety, seed_market])
    (by
      norm_num [scenario_params, seed_market, ExchangeClient.submit_order_dry_run,
        abs_of_nonneg]
      decide)

lemma find_matching_remaining (positions : List (String × Position))
    (strategy symbol : String) (entry_side : Side) (found : String × Position)
    (remaining : List (String × Position))
    (hfind : find_matching_exit_position positions strategy symbol entry_side
      = some (found, remaining)) :
    remaining = positions.filter (fun x => x.1 != found.1) := by
  simp only [find_matching_exit_position] at hfind
  cases hq : positions.find? (fun e =>
      e.2.strategy == strategy && e.2.symbol == symbol &&
        e.2.side == Side.opposite entry_side) with
  | none => rw [hq] at hfind; exact absurd hfind (by simp)
  | some e =>
    rw [hq] at hfind
    rw [Option.some.injEq, Prod.mk.injEq] at hfind
    obtain ⟨h1, h2⟩ := hfind
    rw [← h2, ← h1]

/-- Counterexample to C2: submitting a partially offsetting exit (size 1
against a size-2 position) leaves the in-memory position map EMPTY — the
position does not persist with its original size. -/
def partial_pos : Position :=
  { scenario_pos with size := 2 }

/-- Ledger holding the size-2 long position. -/
def partial_state : GateState :=
  { GateState.default with positions := [("p1", partial_pos)] }

/-- The partial-close run: Sell size 1 against the size-2 position. -/
def partial_result : GateResponse × GateState :=
  process_submit [] wide_safety (seed_market "X") ⟨2, 12⟩
    ⟨"2026-01-02T12:00:00Z"⟩ "o3"
    (fun entry => ExchangeClient.submit_order_dry_run "o3" scenario_params.size entry)
    partial_state scenario_params

/-- Counterexample for C2: the partial close is accepted, yet the position
map afterwards is empty — the position was removed, not kept at its
original size. -/
theorem C2_partial_close_counterexample :
    (∃ checks, partial_result.1 = GateResponse.Accepted "o3" checks) ∧
    partial_result.2.positions = [] := by
  have hside : Side.Sell ≠ Side.Buy := by decide
  constructor
  · refine ⟨(submit_context [] wide_safety (seed_market "X") ⟨2, 12⟩
      ⟨"2026-01-02T12:00:00Z"⟩ partial_state scenario_params).checks ++
        [stop_order_verified_check scenario_params], ?_⟩
    norm_num [hside, partial_result, process_submit, submit_context,
      SubmitParams.request, validate_request, simple, restricted_window_active,
      GateValidator.evaluate, RuleEngine.evaluate, evalRule, apply_rule_hit,
      condition_true, resolve_field, compare, GateState.portfolio_state,
      GateState.add_fill, GateState.default, find_matching_exit_position,
      assoc_insert, ExchangeClient.submit_order_dry_run, partial_state,
      partial_pos, scenario_pos, scenario_params, wide_safety, seed_market,
      Side.opposite, abs_of_nonneg]
  · norm_num [hside, partial_result, process_submit, submit_context,
      SubmitParams.request, validate_request, simple, restricted_window_active,
      GateValidator.evaluate, RuleEngine.evaluate, evalRule, apply_rule_hit,
      condition_true, resolve_field, compare, GateState.portfolio_state,
      GateState.add_fill, GateState.default, find_matching_exit_position,
      assoc_insert, ExchangeClient.submit_order_dry_run, partial_state,
      partial_pos, scenario_pos, scenario_params, wide_safety, seed_market,
      Side.opposite, abs_of_nonneg]

/-- claim C2 (amended): an accepted exit submission — whether it covers the
position fully or only partially — always removes the matched position from
the in-memory position map (`find_matching_exit_position` calls
`remove_entry`); the size-tolerance comparison only gates the
persistent-store deletion and a redundant second in-memory removal. -/
theorem C2_exit_removes_position (rules : List RuleFile)
    (safety : SafetyConfig) (market : MarketState) (clock : Clock)
    (now : DateTimeUtc) (order_id : String)
    (exec : Decimal -> Except String ExchangeResult) (st : GateState)
    (p : SubmitParams) (found : String × Position)
    (remaining : List (String × Position)) (ex : ExchangeResult)
    (hcan : (submit_context rules safety market clock now st p).can_trade = true)
    (hexec : exec (if 0 < p.planned_entry then p.planned_entry else market.price)
      = Except.ok ex)
    (hfind : find_matching_exit_position st.positions p.strategy p.symbol p.side
      = some (found, remaining)) :
    (process_submit rules safety market clock now order_id exec st p).2.positions
      = remaining ∧
    (∀ e ∈ (process_submit rules safety market clock now order_id exec
        st p).2.positions, e.1 ≠ found.1) := by
  have hrem := find_matching_remaining st.positions p.strategy p.symbol p.side
    found remaining hfind
  have hps := process_submit_exit_spec rules safety market clock now order_id exec
    st p found remaining ex hcan hexec hfind
  have hproj : (process_submit rules safety market clock now order_id exec
      st p).2.positions
      = (if found.2.size - 1/1000000000000 ≤ min p.size found.2.size then
          remaining.filter (fun x => x.1 != found.1) else remaining) := by
    rw [hps]
  have hpos : (if found.2.size - 1/1000000000000 ≤ min p.size found.2.size then
      remaining.filter (fun x => x.1 != found.1) else remaining) = remaining := by
    split_ifs with h
    · rw [hrem, List.filter_filter]
      simp
    · rfl
  refine ⟨hproj.trans hpos, ?_⟩
  intro e he
  rw [hproj, hpos, hrem, List.mem_filter] at he
  simpa using he.2

/-- Witness for C2 (amended): in the concrete partial close the position
map after processing equals the remainder (which is empty) and no entry
with the closed position id survives. -/
theorem C2_exit_removes_position_witness :
    partial_result.2.positions = [] ∧
    (∀ e ∈ partial_result.2.positions, e.1 ≠ "p1") := by
  have h := C2_exit_removes_position [] wide_safety (seed_market "X") ⟨2, 12⟩
    ⟨"2026-01-02T12:00:00Z"⟩ "o3"
    (fun entry => ExchangeClient.submit_order_dry_run "o3" scenario_params.size entry)
    partial_state scenario_params ("p1", partial_pos) [] 
    ⟨some "dry_run_o3", 110, 1, 11/100, true⟩
    (by
      norm_num [submit_context, SubmitParams.request, validate_request, simple,
        restricted_window_active, GateValidator.evaluate, RuleEngine.evaluate,
        GateState.portfolio_state, GateState.default, partial_state, partial_pos,
        scenario_pos, scenario_params, wide_safety, seed_market])
    (by
      norm_num [scenario_params, seed_market, ExchangeClient.submit_order_dry_run,
        abs_of_nonneg]
      decide)
    (by
      norm_num [partial_state, partial_pos, scenario_pos, scenario_params,
        find_matching_exit_position, Side.opposite])
  exact h

/-- A long position entered at price 1; closing it at a much higher price
books (sign-inverted) realized P&L of −40000 and drives account value
negative. -/
def loss_pos : Position :=
  { scenario_pos with entry_price := 1 }

/-- Ledger holding the entry-price-1 long position. -/
def loss_state : GateState :=
  { GateState.default with positions := [("p1", loss_pos)] }

/-- Sell exit at planned entry 40001 (stop 50000 keeps the stop check
passing). -/
def loss_params : SubmitParams :=
  { scenario_params with
    planned_entry := 40001
    planned_stop := 50000
    stop_price := some 50000 }

/-- The big-loss exit run. -/
def loss_result : GateResponse × GateState :=
  process_submit [] wide_safety (seed_market "X") ⟨2, 12⟩
    ⟨"2026-01-02T12:00:00Z"⟩ "o4"
    (fun entry => ExchangeClient.submit_order_dry_run "o4" loss_params.size entry)
    loss_state loss_params

/-- `a ≤ max a b` for the peak-update pattern `if a < b then b else a`. -/
lemma peak_ite_le (a b : Decimal) : a ≤ (if a < b then b else a) := by
  split_ifs with h
  · exact le_of_lt h
  · exact le_refl _

lemma add_fill_peak_le (s : GateState) (f : Fill) :
    s.equity_peak ≤ ( GateState.add_fill s f).equity_peak := by
  simp only [GateState.add_fill]
  exact peak_ite_le _ _

lemma add_fill_value_le_peak (s : GateState) (f : Fill) :
    ( GateState.add_fill s f).account_value
      ≤ ( GateState.add_fill s f).equity_peak := by
  simp only [GateState.add_fill]
  split_ifs with h
  · exact le_refl _
  · exact le_of_not_lt h

lemma process_submit_peak_le (rules : List RuleFile) (safety : SafetyConfig)
    (market : MarketState) (clock : Clock) (now : DateTimeUtc)
    (order_id : String) (exec : Decimal -> Except String ExchangeResult)
    (st : GateState) (p : SubmitParams) :
    st.equity_peak
      ≤ (process_submit rules safety market clock now order_id exec st p).2.equity_peak := by
  cases hcan : (submit_context rules safety market clock now st p).can_trade with
  | false =>
    simp only [process_submit, hcan, Bool.not_false, if_true]
    exact le_refl _
  | true =>
    cases hexec : exec (if 0 < p.planned_entry then p.planned_entry
        else market.price) with
    | error msg =>
      simp only [process_submit, hcan, Bool.not_true, Bool.false_eq_true,
        if_false, hexec]
      exact le_refl _
    | ok ex =>
      cases hfind : find_matching_exit_position st.positions p.strategy
          p.symbol p.side with
      | some pr =>
        obtain ⟨found, remaining⟩ := pr
        have hps := process_submit_exit_spec rules safety market clock now
          order_id exec st p found remaining ex hcan hexec hfind
        have hproj : (process_submit rules safety market clock now order_id exec
            st p).2.equity_peak
            = (if st.equity_peak < st.account_value +
                  (max ex.executed_price 1 - found.2.entry_price) *
                    (min p.size found.2.size) *
                    (if p.side = Side.Buy then 1 else -1) then
                st.account_value +
                  (max ex.executed_price 1 - found.2.entry_price) *
                    (min p.size found.2.size) *
                    (if p.side = Side.Buy then 1 else -1)
              else st.equity_peak) := by
          rw [hps]
        rw [hproj]
        exact peak_ite_le _ _
      | none =>
        have hps := process_submit_entry_spec rules safety market clock now
          order_id exec st p ex hcan hexec hfind
        have hproj : (process_submit rules safety market clock now order_id exec
            st p).2.equity_peak
            = (if st.equity_peak < st.account_value then st.account_value
              else st.equity_peak) := by
          rw [hps]
        rw [hproj]
        exact peak_ite_le _ _

lemma drawdown_bounds (s : GateState) (now : DateTimeUtc)
    (h : 0 < s.equity_peak) :
    (0 ≤ ( GateState.portfolio_state s now).drawdown_from_peak
      ↔ s.account_value ≤ s.equity_peak) ∧
    (( GateState.portfolio_state s now).drawdown_from_peak ≤ 1
      ↔ 0 ≤ s.account_value) := by
  simp only [GateState.portfolio_state, if_pos h]
  constructor
  · rw [le_div_iff₀ h]
    constructor <;> intro h2 <;> nlinarith
  · rw [div_le_one h]
    constructor <;> intro h2 <;> linarith

/-- Counterexample to C8: after a reachable sequence of fills the equity
peak is positive yet the reported drawdown is 4, outside [0, 1]. -/
theorem C8_drawdown_counterexample :
    0 < loss_result.2.equity_peak ∧
    ( GateState.portfolio_state loss_result.2
        ⟨"2026-01-02T12:00:00Z"⟩).drawdown_from_peak = 4 ∧
    ¬ ( GateState.portfolio_state loss_result.2
        ⟨"2026-01-02T12:00:00Z"⟩).drawdown_from_peak ≤ 1 := by
  have hside : Side.Sell ≠ Side.Buy := by decide
  have hpk : (10000:ℚ) ≤ loss_result.2.equity_peak := by
    have h := process_submit_peak_le [] wide_safety (seed_market "X") ⟨2, 12⟩
      ⟨"2026-01-02T12:00:00Z"⟩ "o4"
      (fun entry => ExchangeClient.submit_order_dry_run "o4" loss_params.size entry)
      loss_state loss_params
    have h10 : loss_state.equity_peak = 10000 := by
      norm_num [loss_state, GateState.default]
    rw [h10] at h
    exact h
  have h4 : ( GateState.portfolio_state loss_result.2
      ⟨"2026-01-02T12:00:00Z"⟩).drawdown_from_peak = 4 := by
    norm_num [hside, loss_result, process_submit, submit_context,
      SubmitParams.request, validate_request, simple, restricted_window_active,
      GateValidator.evaluate, RuleEngine.evaluate, evalRule, apply_rule_hit,
      condition_true, resolve_field, compare, GateState.portfolio_state,
      GateState.add_fill, GateState.default, find_matching_exit_position,
      assoc_insert, ExchangeClient.submit_order_dry_run, loss_state, loss_pos,
      scenario_pos, loss_params, scenario_params, wide_safety, seed_market,
      Side.opposite, abs_of_nonneg]
  refine ⟨by linarith, h4, by rw [h4]; norm_num⟩

/-- claim C8 (amended): equity_peak never decreases, neither under
`add_fill` alone nor across a full SubmitOrder processing step, and right
after `add_fill` the account value never exceeds the peak; when
equity_peak > 0 the reported drawdown is nonnegative exactly when
account_value ≤ equity_peak and is at most 1 exactly when
account_value ≥ 0 — so the [0, 1] bound additionally needs a nonnegative
account value, which fills can violate. -/
theorem C8_peak_monotone_drawdown_bounds :
    (∀ (s : GateState) (f : Fill),
      s.equity_peak ≤ ( GateState.add_fill s f).equity_peak) ∧
    (∀ (s : GateState) (f : Fill),
      ( GateState.add_fill s f).account_value
        ≤ ( GateState.add_fill s f).equity_peak) ∧
    (∀ (rules : List RuleFile) (safety : SafetyConfig) (market : MarketState)
      (clock : Clock) (now : DateTimeUtc) (order_id : String)
      (exec : Decimal -> Except String ExchangeResult) (st : GateState)
      (p : SubmitParams),
      st.equity_peak
        ≤ (process_submit rules safety market clock now order_id exec st p).2.equity_peak) ∧
    (∀ (s : GateState) (now : DateTimeUtc), 0 < s.equity_peak →
      (0 ≤ ( GateState.portfolio_state s now).drawdown_from_peak
        ↔ s.account_value ≤ s.equity_peak) ∧
      (( GateState.portfolio_state s now).drawdown_from_peak ≤ 1
        ↔ 0 ≤ s.account_value)) :=
  ⟨add_fill_peak_le, add_fill_value_le_peak,
   fun rules safety market clock now order_id exec st p =>
     process_submit_peak_le rules safety market clock now order_id exec st p,
   fun s now h => drawdown_bounds s now h⟩

/-- Witness for C8 (amended): at the default ledger state the bounds hold
concretely. -/
theorem C8_peak_monotone_drawdown_bounds_witness :
    (0:ℚ) < GateState.default.equity_peak ∧
    (0 ≤ ( GateState.portfolio_state GateState.default
        ⟨"2026-01-02T12:00:00Z"⟩).drawdown_from_peak
      ↔ GateState.default.account_value ≤ GateState.default.equity_peak) ∧
    (( GateState.portfolio_state GateState.default
        ⟨"2026-01-02T12:00:00Z"⟩).drawdown_from_peak ≤ 1
      ↔ 0 ≤ GateState.default.account_value) := by
  have h0 : (0:ℚ) < GateState.default.equity_peak := by norm_num [GateState.default]
  have h := C8_peak_monotone_drawdown_bounds.2.2.2 GateState.default
    ⟨"2026-01-02T12:00:00Z"⟩ h0
  exact ⟨h0, h.1, h.2⟩

/-- claim C9: in dry-run mode `submit_order` fails exactly when size or
planned entry is non-positive (non-finite values cannot arise in the exact
model), otherwise fills at exactly the planned entry with a 0.1% fee; and
whenever the execution adapter fails on an approved submission the gate
answers with an Error response and the ledger state is returned unchanged. -/
theorem C9_dry_run_and_error_no_mutation :
    (∀ (client_order_id : String) (size planned_entry : Decimal),
      (∃ msg, ExchangeClient.submit_order_dry_run client_order_id size planned_entry
        = Except.error msg) ↔ size ≤ 0 ∨ planned_entry ≤ 0) ∧
    (∀ (client_order_id : String) (size planned_entry : Decimal),
      0 < size → 0 < planned_entry →
      ExchangeClient.submit_order_dry_run client_order_id size planned_entry
        = Except.ok
          { exchange_order_id := some ("dry_run_" ++ client_order_id)
            executed_price := planned_entry
            executed_size := size
            fee := planned_entry * size * (1/1000)
            filled := true }) ∧
    (∀ (rules : List RuleFile) (safety : SafetyConfig) (market : MarketState)
      (clock : Clock) (now : DateTimeUtc) (order_id : String)
      (exec : Decimal -> Except String ExchangeResult) (st : GateState)
      (p : SubmitParams) (msg : String),
      (submit_context rules safety market clock now st p).can_trade = true →
      exec (if 0 < p.planned_entry then p.planned_entry else market.price)
        = Except.error msg →
      process_submit rules safety market clock now order_id exec st p
        = (GateResponse.Error ("exchange submit failed: " ++ msg), st)) := by
  refine ⟨?_, ?_, ?_⟩
  · intro client_order_id size planned_entry
    unfold ExchangeClient.submit_order_dry_run
    split_ifs with h1 h2
    · exact ⟨fun _ => Or.inl h1, fun _ => ⟨"invalid order size", rfl⟩⟩
    · exact ⟨fun _ => Or.inr h2, fun _ => ⟨"invalid planned entry", rfl⟩⟩
    · constructor
      · rintro ⟨msg, hmsg⟩
        exact absurd hmsg (by simp)
      · rintro (h | h)
        · exact absurd h h1
        · exact absurd h h2
  · intro client_order_id size planned_entry hs he
    unfold ExchangeClient.submit_order_dry_run
    rw [if_neg (not_le.mpr hs), if_neg (not_le.mpr he)]
    have habs : |planned_entry * size * (1/1000 : ℚ)|
        = planned_entry * size * (1/1000) := abs_of_nonneg (by positivity)
    rw [habs]
  · intro rules safety market clock now order_id exec st p msg hcan hexec
    simp only [process_submit, hcan, Bool.not_true, Bool.false_eq_true,
      if_false, hexec]

/-- Witness for C9: size 0 makes the dry-run adapter fail; size 2 at entry
100 fills at 100 with fee 0.2; an adapter error on an approved submission
yields an Error response and the untouched scenario ledger. -/
theorem C9_dry_run_and_error_no_mutation_witness :
    (∃ msg, ExchangeClient.submit_order_dry_run "w" 0 100 = Except.error msg) ∧
    ExchangeClient.submit_order_dry_run "w" 2 100
      = Except.ok
        { exchange_order_id := some ("dry_run_" ++ "w")
          executed_price := 100
          executed_size := 2
          fee := 100 * 2 * (1/1000)
          filled := true } ∧
    process_submit [] wide_safety (seed_market "X") ⟨2, 12⟩
        ⟨"2026-01-02T12:00:00Z"⟩ "o5" (fun _ => Except.error "boom")
        scenario_state scenario_params
      = (GateResponse.Error ("exchange submit failed: " ++ "boom"),
         scenario_state) :=
  ⟨(C9_dry_run_and_error_no_mutation.1 "w" 0 100).mpr (Or.inl (by norm_num)),
   C9_dry_run_and_error_no_mutation.2.1 "w" 2 100 (by norm_num) (by norm_num),
   C9_dry_run_and_error_no_mutation.2.2 [] wide_safety (seed_market "X") ⟨2, 12⟩
     ⟨"2026-01-02T12:00:00Z"⟩ "o5" (fun _ => Except.error "boom")
     scenario_state scenario_params "boom"
     (by
       norm_num [submit_context, SubmitParams.request, validate_request, simple,
         restricted_window_active, GateValidator.evaluate, RuleEngine.evaluate,
         GateState.portfolio_state, GateState.default, scenario_state,
         scenario_pos, scenario_params, wide_safety, seed_market])
     rfl⟩

/-- claim C1 (code divergence at the spec scenario of §8): the exit IS
accepted and the position IS removed, but the code books realized P&L −10
(account value drops from 10000 to 9990 instead of rising by 10) and
adjusts cash twice — by realized minus fee and again by notional minus fee
— so cash moves by +99.78, not by +10 − fee. -/
theorem C1_exit_scenario_code_divergence :
    (∃ checks, scenario_result.1 = GateResponse.Accepted "o1" checks) ∧
    scenario_result.2.positions = [] ∧
    scenario_result.2.account_value = GateState.default.account_value - 10 ∧
    scenario_result.2.cash
      = GateState.default.cash + ((-10) - 11/100) + (110 * 1 - 11/100) := by
  have hside : Side.Sell ≠ Side.Buy := by decide
  refine ⟨⟨(submit_context [] wide_safety (seed_market "X") ⟨2, 12⟩
      ⟨"2026-01-02T12:00:00Z"⟩ scenario_state scenario_params).checks ++
        [stop_order_verified_check scenario_params], ?_⟩, ?_, ?_, ?_⟩ <;>
    norm_num [hside, scenario_result, process_submit, submit_context,
      SubmitParams.request, validate_request, simple, restricted_window_active,
      GateValidator.evaluate, RuleEngine.evaluate, evalRule, apply_rule_hit,
      condition_true, resolve_field, compare, GateState.portfolio_state,
      GateState.add_fill, GateState.default, find_matching_exit_position,
      assoc_insert, ExchangeClient.submit_order_dry_run, scenario_state,
      scenario_pos, scenario_params, wide_safety, seed_market,
      Side.opposite, abs_of_nonneg]

/-- The JSON value tree (`serde_json::Value`): the wire round-trip of
claim C10 is stated at this level, i.e. about the composition of the
derived Serialize and Deserialize implementations through a JSON value. -/
inductive Json
  | null
  | bool (b : Bool)
  | num (q : Decimal)
  | str (s : String)
  | arr (items : List Json)
  | obj (fields : List (String × Json))

/-- Field lookup in a serialized JSON object (the derived deserializer
reads fields by name). -/
def get_field : List (String × Json) → String → Option Json
  | [], _ => none
  | (k, v) :: rest, key => if k == key then some v else get_field rest key

/-- Decode every element of a serialized JSON array. -/
def map_option_json (f : Json → Option α) : List Json → Option (List α)
  | [] => some []
  | x :: xs =>
    match f x, map_option_json f xs with
    | some a, some rest => some (a :: rest)
    | _, _ => none

def encode_list (f : α → Json) (xs : List α) : Json :=
  Json.arr (xs.map f)

def decode_list (f : Json → Option α) : Json → Option (List α)
  | Json.arr items => map_option_json f items
  | _ => none

lemma map_option_json_map (f : α → Json) (g : Json → Option α)
    (h : ∀ a, g (f a) = some a) (xs : List α) :
    map_option_json g (xs.map f) = some xs := by
  induction xs with
  | nil => rfl
  | cons x xs ih =>
    simp only [List.map_cons, map_option_json, h, ih]

lemma decode_encode_list (f : α → Json) (g : Json → Option α)
    (h : ∀ a, g (f a) = some a) (xs : List α) :
    decode_list g (encode_list f xs) = some xs := by
  simp only [encode_list, decode_list]
  exact map_option_json_map f g h xs

def decode_num : Json → Option Decimal
  | Json.num q => some q
  | _ => none

def decode_str : Json → Option String
  | Json.str s => some s
  | _ => none

def decode_bool : Json → Option Bool
  | Json.bool b => some b
  | _ => none

/-- `u32` values are serialized as JSON numbers. -/
def decode_nat : Json → Option Nat
  | Json.num q => if q.den = 1 ∧ 0 ≤ q.num then some q.num.toNat else none
  | _ => none

lemma decode_nat_encode (n : Nat) : decode_nat (Json.num (n : Decimal)) = some n := by
  simp [decode_nat]

def encode_option (f : α → Json) : Option α → Json
  | none => Json.null
  | some a => f a

def decode_option (f : Json → Option α) : Json → Option (Option α)
  | Json.null => some none
  | j => (f j).map some

def encode_datetime (t : DateTimeUtc) : Json :=
  Json.str t.rfc3339

def decode_datetime : Json → Option DateTimeUtc
  | Json.str s => some ⟨s⟩
  | _ => none

/-- `Side` with `rename_all = "snake_case"`. -/
def encode_side : Side → Json
  | Side.Buy => Json.str "buy"
  | Side.Sell => Json.str "sell"

def decode_side : Json → Option Side
  | Json.str "buy" => some Side.Buy
  | Json.str "sell" => some Side.Sell
  | _ => none

lemma decode_encode_side (s : Side) : decode_side (encode_side s) = some s := by
  cases s <;> rfl

/-- `OrderType` with `rename_all = "snake_case"`. -/
def encode_order_type : OrderType → Json
  | OrderType.Limit => Json.str "limit"
  | OrderType.Market => Json.str "market"
  | OrderType.Stop => Json.str "stop"

def decode_order_type : Json → Option OrderType
  | Json.str "limit" => some OrderType.Limit
  | Json.str "market" => some OrderType.Market
  | Json.str "stop" => some OrderType.Stop
  | _ => none

lemma decode_encode_order_type (t : OrderType) :
    decode_order_type (encode_order_type t) = some t := by
  cases t <;> rfl

/-- `OrderStatus` with `rename_all = "snake_case"`. -/
def encode_order_status : OrderStatus → Json
  | OrderStatus.Open => Json.str "open"
  | OrderStatus.Filled => Json.str "filled"
  | OrderStatus.Cancelled => Json.str "cancelled"

def decode_order_status : Json → Option OrderStatus
  | Json.str "open" => some OrderStatus.Open
  | Json.str "filled" => some OrderStatus.Filled
  | Json.str "cancelled" => some OrderStatus.Cancelled
  | _ => none

lemma decode_encode_order_status (t : OrderStatus) :
    decode_order_status (encode_order_status t) = some t := by
  cases t <;> rfl

/-- `RuleProposalType` with `rename_all = "snake_case"`. -/
def encode_proposal_type : RuleProposalType → Json
  | RuleProposalType.Activate => Json.str "activate"
  | RuleProposalType.Suspend => Json.str "suspend"
  | RuleProposalType.ModifyParameter => Json.str "modify_parameter"

def decode_proposal_type : Json → Option RuleProposalType
  | Json.str "activate" => some RuleProposalType.Activate
  | Json.str "suspend" => some RuleProposalType.Suspend
  | Json.str "modify_parameter" => some RuleProposalType.ModifyParameter
  | _ => none

lemma decode_encode_proposal_type (t : RuleProposalType) :
    decode_proposal_type (encode_proposal_type t) = some t := by
  cases t <;> rfl

lemma decode_encode_option_num (v : Option Decimal) :
    decode_option decode_num (encode_option Json.num v) = some v := by
  cases v <;> rfl

lemma decode_encode_option_str (v : Option String) :
    decode_option decode_str (encode_option Json.str v) = some v := by
  cases v <;> rfl

lemma decode_encode_option_bool (v : Option Bool) :
    decode_option decode_bool (encode_option Json.bool v) = some v := by
  cases v <;> rfl

def encode_check_result (c : CheckResult) : Json :=
  Json.obj
    [("check_name", Json.str c.check_name),
     ("passed", Json.bool c.passed),
     ("value", Json.num c.value),
     ("limit", Json.num c.limit),
     ("source", Json.str c.source)]

def decode_check_result : Json → Option CheckResult
  | Json.obj fields =>
    match get_field fields "check_name", get_field fields "passed",
        get_field fields "value", get_field fields "limit",
        get_field fields "source" with
    | some (Json.str n), some (Json.bool p), some (Json.num v),
        some (Json.num l), some (Json.str src) => some ⟨n, p, v, l, src⟩
    | _, _, _, _, _ => none
  | _ => none

lemma decode_encode_check_result (c : CheckResult) :
    decode_check_result (encode_check_result c) = some c := by
  cases c
  simp [encode_check_result, decode_check_result, get_field]

def encode_rule_proposal (r : RuleProposal) : Json :=
  Json.obj
    [("proposal_type", encode_proposal_type r.proposal_type),
     ("rule_id", Json.str r.rule_id),
     ("parameter", encode_option Json.str r.parameter),
     ("old_value", encode_option Json.num r.old_value),
     ("new_value", encode_option Json.num r.new_value),
     ("evidence", encode_option Json.str r.evidence),
     ("is_tightening", encode_option Json.bool r.is_tightening)]

def decode_rule_proposal : Json → Option RuleProposal
  | Json.obj fields =>
    match get_field fields "proposal_type", get_field fields "rule_id",
        get_field fields "parameter", get_field fields "old_value",
        get_field fields "new_value", get_field fields "evidence",
        get_field fields "is_tightening" with
    | some jt, some (Json.str rid), some jp, some jov, some jnv, some jev,
        some jit =>
      match decode_proposal_type jt, decode_option decode_str jp,
          decode_option decode_num jov, decode_option decode_num jnv,
          decode_option decode_str jev, decode_option decode_bool jit with
      | some t, some par, some ov, some nv, some ev, some it =>
        some ⟨t, rid, par, ov, nv, ev, it⟩
      | _, _, _, _, _, _ => none
    | _, _, _, _, _, _, _ => none
  | _ => none

lemma decode_encode_rule_proposal (r : RuleProposal) :
    decode_rule_proposal (encode_rule_proposal r) = some r := by
  cases r
  simp [encode_rule_proposal, decode_rule_proposal, get_field,
    decode_encode_proposal_type, decode_encode_option_str,
    decode_encode_option_num, decode_encode_option_bool]

def encode_portfolio_state (p : PortfolioState) : Json :=
  Json.obj
    [("account_value", Json.num p.account_value),
     ("available_cash", Json.num p.available_cash),
     ("total_exposure", Json.num p.total_exposure),
     ("open_position_count", Json.num (p.open_position_count : Decimal)),
     ("daily_pnl", Json.num p.daily_pnl),
     ("weekly_pnl", Json.num p.weekly_pnl),
     ("drawdown_from_peak", Json.num p.drawdown_from_peak),
     ("updated_at", encode_datetime p.updated_at)]

def decode_portfolio_state : Json → Option PortfolioState
  | Json.obj fields =>
    match get_field fields "account_value", get_field fields "available_cash",
        get_field fields "total_exposure",
        get_field fields "open_position_count", get_field fields "daily_pnl",
        get_field fields "weekly_pnl", get_field fields "drawdown_from_peak",
        get_field fields "updated_at" with
    | some (Json.num av), some (Json.num ac), some (Json.num te), some jcount,
        some (Json.num dp), some (Json.num wp), some (Json.num dd), some jts =>
      match decode_nat jcount, decode_datetime jts with
      | some count, some ts => some ⟨av, ac, te, count, dp, wp, dd, ts⟩
      | _, _ => none
    | _, _, _, _, _, _, _, _ => none
  | _ => none

lemma decode_encode_portfolio_state (p : PortfolioState) :
    decode_portfolio_state (encode_portfolio_state p) = some p := by
  cases p
  simp [encode_portfolio_state, decode_portfolio_state, get_field,
    decode_nat_encode, encode_datetime, decode_datetime]

def encode_order (o : Order) : Json :=
  Json.obj
    [("id", Json.str o.id),
     ("strategy", Json.str o.strategy),
     ("symbol", Json.str o.symbol),
     ("side", encode_side o.side),
     ("size", Json.num o.size),
     ("order_type", encode_order_type o.order_type),
     ("requested_price", encode_option Json.num o.requested_price),
     ("stop_price", encode_option Json.num o.stop_price),
     ("placed_at", encode_datetime o.placed_at),
     ("status", encode_order_status o.status),
     ("thesis_slug", Json.str o.thesis_slug)]

def decode_order : Json → Option Order
  | Json.obj fields =>
    match get_field fields "id", get_field fields "strategy",
        get_field fields "symbol", get_field fields "side",
        get_field fields "size", get_field fields "order_type",
        get_field fields "requested_price", get_field fields "stop_price",
        get_field fields "placed_at", get_field fields "status",
        get_field fields "thesis_slug" with
    | some (Json.str id), some (Json.str strat), some (Json.str sym),
        some jside, some (Json.num size), some jot, some jrp, some jsp,
        some jts, some jstatus, some (Json.str slug) =>
      match decode_side jside, decode_order_type jot,
          decode_option decode_num jrp, decode_option decode_num jsp,
          decode_datetime jts, decode_order_status jstatus with
      | some side, some ot, some rp, some sp, some ts, some status =>
        some ⟨id, strat, sym, side, size, ot, rp, sp, ts, status, slug⟩
      | _, _, _, _, _, _ => none
    | _, _, _, _, _, _, _, _, _, _, _ => none
  | _ => none

lemma decode_encode_order (o : Order) :
    decode_order (encode_order o) = some o := by
  cases o
  simp [encode_order, decode_order, get_field, decode_encode_side,
    decode_encode_order_type, decode_encode_option_num,
    decode_encode_order_status, encode_datetime, decode_datetime]

def encode_fill (f : Fill) : Json :=
  Json.obj
    [("order_id", Json.str f.order_id),
     ("symbol", Json.str f.symbol),
     ("side", encode_side f.side),
     ("size", Json.num f.size),
     ("price", Json.num f.price),
     ("fee", Json.num f.fee),
     ("filled_at", encode_datetime f.filled_at),
     ("strategy", Json.str f.strategy),
     ("thesis_slug", Json.str f.thesis_slug),
     ("is_entry", Json.bool f.is_entry)]

def decode_fill : Json → Option Fill
  | Json.obj fields =>
    match get_field fields "order_id", get_field fields "symbol",
        get_field fields "side", get_field fields "size",
        get_field fields "price", get_field fields "fee",
        get_field fields "filled_at", get_field fields "strategy",
        get_field fields "thesis_slug", get_field fields "is_entry" with
    | some (Json.str oid), some (Json.str sym), some jside,
        some (Json.num size), some (Json.num price), some (Json.num fee),
        some jts, some (Json.str strat), some (Json.str slug),
        some (Json.bool entry) =>
      match decode_side jside, decode_datetime jts with
      | some side, some ts =>
        some ⟨oid, sym, side, size, price, fee, ts, strat, slug, entry⟩
      | _, _ => none
    | _, _, _, _, _, _, _, _, _, _ => none
  | _ => none

lemma decode_encode_fill (f : Fill) :
    decode_fill (encode_fill f) = some f := by
  cases f
  simp [encode_fill, decode_fill, get_field, decode_encode_side,
    encode_datetime, decode_datetime]

def encode_market_state (m : MarketState) : Json :=
  Json.obj
    [("symbol", Json.str m.symbol),
     ("price", Json.num m.price),
     ("spread_pct", Json.num m.spread_pct),
     ("volume_ratio", Json.num ( MarketState.volume_ratio m)),
     ("realized_volatility", Json.num m.realized_volatility),
     ("funding_rate_zscore", Json.num m.funding_rate_zscore),
     ("regime_id", Json.str m.regime_id),
     ("minute", encode_datetime m.minute)]

def decode_market_state : Json → Option MarketState
  | Json.obj fields =>
    match get_field fields "symbol", get_field fields "price",
        get_field fields "spread_pct", get_field fields "volume_ratio",
        get_field fields "realized_volatility",
        get_field fields "funding_rate_zscore", get_field fields "regime_id",
        get_field fields "minute" with
    | some (Json.str sym), some (Json.num price), some (Json.num spread),
        some (Json.num vol), some (Json.num rv), some (Json.num fz),
        some (Json.str regime), some jts =>
      match decode_datetime jts with
      | some ts => some ⟨sym, price, spread, vol, rv, fz, regime, ts⟩
      | _ => none
    | _, _, _, _, _, _, _, _ => none
  | _ => none

lemma decode_encode_market_state (m : MarketState) :
    decode_market_state (encode_market_state m) = some m := by
  cases m
  simp [encode_market_state, decode_market_state, get_field,
    encode_datetime, decode_datetime]

/-- crates/common: the derived `Serialize` of `GateRequest`
(internally tagged on `request_type`, tag = variant name). -/
def serialize_gate_request : GateRequest → Json
  | GateRequest.GetPortfolio =>
    Json.obj [("request_type", Json.str "GetPortfolio")]
  | GateRequest.GetOpenOrders =>
    Json.obj [("request_type", Json.str "GetOpenOrders")]
  | GateRequest.GetFillHistory since =>
    Json.obj [("request_type", Json.str "GetFillHistory"),
      ("since", Json.str since)]
  | GateRequest.GetMarketData symbol =>
    Json.obj [("request_type", Json.str "GetMarketData"),
      ("symbol", Json.str symbol)]
  | GateRequest.SubmitOrder strategy symbol side size order_type price
      stop_price thesis_slug planned_entry planned_stop =>
    Json.obj [("request_type", Json.str "SubmitOrder"),
      ("strategy", Json.str strategy),
      ("symbol", Json.str symbol),
      ("side", encode_side side),
      ("size", Json.num size),
      ("order_type", encode_order_type order_type),
      ("price", encode_option Json.num price),
      ("stop_price", encode_option Json.num stop_price),
      ("thesis_slug", Json.str thesis_slug),
      ("planned_entry", Json.num planned_entry),
      ("planned_stop", Json.num planned_stop)]
  | GateRequest.CancelOrder order_id =>
    Json.obj [("request_type", Json.str "CancelOrder"),
      ("order_id", Json.str order_id)]
  | GateRequest.TightenStop order_id new_stop =>
    Json.obj [("request_type", Json.str "TightenStop"),
      ("order_id", Json.str order_id),
      ("new_stop", Json.num new_stop)]
  | GateRequest.ProposeRule proposal =>
    Json.obj [("request_type", Json.str "ProposeRule"),
      ("proposal", encode_rule_proposal proposal)]

/-- crates/common: the derived `Deserialize` of `GateRequest`. -/
def deserialize_gate_request : Json → Option GateRequest
  | Json.obj fields =>
    match get_field fields "request_type" with
    | some (Json.str tag) =>
      if tag = "GetPortfolio" then some GateRequest.GetPortfolio
      else if tag = "GetOpenOrders" then some GateRequest.GetOpenOrders
      else if tag = "GetFillHistory" then
        match get_field fields "since" with
        | some (Json.str since) => some (GateRequest.GetFillHistory since)
        | _ => none
      else if tag = "GetMarketData" then
        match get_field fields "symbol" with
        | some (Json.str symbol) => some (GateRequest.GetMarketData symbol)
        | _ => none
      else if tag = "SubmitOrder" then
        match get_field fields "strategy", get_field fields "symbol",
            get_field fields "side", get_field fields "size",
            get_field fields "order_type", get_field fields "price",
            get_field fields "stop_price", get_field fields "thesis_slug",
            get_field fields "planned_entry",
            get_field fields "planned_stop" with
        | some (Json.str strategy), some (Json.str symbol), some jside,
            some (Json.num size), some jot, some jprice, some jstop,
            some (Json.str slug), some (Json.num pe), some (Json.num ps) =>
          match decode_side jside, decode_order_type jot,
              decode_option decode_num jprice,
              decode_option decode_num jstop with
          | some side, some ot, some price, some stop =>
            some (GateRequest.SubmitOrder strategy symbol side size ot price
              stop slug pe ps)
          | _, _, _, _ => none
        | _, _, _, _, _, _, _, _, _, _ => none
      else if tag = "CancelOrder" then
        match get_field fields "order_id" with
        | some (Json.str order_id) => some (GateRequest.CancelOrder order_id)
        | _ => none
      else if tag = "TightenStop" then
        match get_field fields "order_id", get_field fields "new_stop" with
        | some (Json.str order_id), some (Json.num new_stop) =>
          some (GateRequest.TightenStop order_id new_stop)
        | _, _ => none
      else if tag = "ProposeRule" then
        match get_field fields "proposal" with
        | some jp => (decode_rule_proposal jp).map GateRequest.ProposeRule
        | _ => none
      else none
    | _ => none
  | _ => none

/-- crates/common: the derived `Serialize` of `GateResponse`
(adjacently tagged: tag `response_type`, content `payload`). -/
def serialize_gate_response : GateResponse → Json
  | GateResponse.Accepted order_id checks_passed =>
    Json.obj [("response_type", Json.str "Accepted"),
      ("payload", Json.obj
        [("order_id", Json.str order_id),
         ("checks_passed", encode_list encode_check_result checks_passed)])]
  | GateResponse.Rejected checks_failed =>
    Json.obj [("response_type", Json.str "Rejected"),
      ("payload", Json.obj
        [("checks_failed", encode_list encode_check_result checks_failed)])]
  | GateResponse.Portfolio state =>
    Json.obj [("response_type", Json.str "Portfolio"),
      ("payload", encode_portfolio_state state)]
  | GateResponse.Orders orders =>
    Json.obj [("response_type", Json.str "Orders"),
      ("payload", encode_list encode_order orders)]
  | GateResponse.Fills fills =>
    Json.obj [("response_type", Json.str "Fills"),
      ("payload", encode_list encode_fill fills)]
  | GateResponse.MarketData market =>
    Json.obj [("response_type", Json.str "MarketData"),
      ("payload", encode_market_state market)]
  | GateResponse.ProposalAcknowledged proposal_id auto_approved reason =>
    Json.obj [("response_type", Json.str "ProposalAcknowledged"),
      ("payload", Json.obj
        [("proposal_id", Json.str proposal_id),
         ("auto_approved", Json.bool auto_approved),
         ("reason", Json.str reason)])]
  | GateResponse.Error message =>
    Json.obj [("response_type", Json.str "Error"),
      ("payload", Json.obj [("message", Json.str message)])]

/-- crates/common: the derived `Deserialize` of `GateResponse`. -/
def deserialize_gate_response : Json → Option GateResponse
  | Json.obj fields =>
    match get_field fields "response_type", get_field fields "payload" with
    | some (Json.str tag), some payload =>
      if tag = "Accepted" then
        match payload with
        | Json.obj pf =>
          match get_field pf "order_id", get_field pf "checks_passed" with
          | some (Json.str order_id), some jchecks =>
            (decode_list decode_check_result jchecks).map
              (GateResponse.Accepted order_id)
          | _, _ => none
        | _ => none
      else if tag = "Rejected" then
        match payload with
        | Json.obj pf =>
          match get_field pf "checks_failed" with
          | some jchecks =>
            (decode_list decode_check_result jchecks).map GateResponse.Rejected
          | _ => none
        | _ => none
      else if tag = "Portfolio" then
        (decode_portfolio_state payload).map GateResponse.Portfolio
      else if tag = "Orders" then
        (decode_list decode_order payload).map GateResponse.Orders
      else if tag = "Fills" then
        (decode_list decode_fill payload).map GateResponse.Fills
      else if tag = "MarketData" then
        (decode_market_state payload).map GateResponse.MarketData
      else if tag = "ProposalAcknowledged" then
        match payload with
        | Json.obj pf =>
          match get_field pf "proposal_id", get_field pf "auto_approved",
              get_field pf "reason" with
          | some (Json.str proposal_id), some (Json.bool auto_approved),
              some (Json.str reason) =>
            some (GateResponse.ProposalAcknowledged proposal_id auto_approved
              reason)
          | _, _, _ => none
        | _ => none
      else if tag = "Error" then
        match payload with
        | Json.obj pf =>
          match get_field pf "message" with
          | some (Json.str message) => some (GateResponse.Error message)
          | _ => none
        | _ => none
      else none
    | _, _ => none
  | _ => none

/-- claim C10: serializing any `GateRequest` or `GateResponse` to JSON and
deserializing the result yields the original value. -/
theorem C10_json_roundtrip :
    (∀ r : GateRequest,
      deserialize_gate_request (serialize_gate_request r) = some r) ∧
    (∀ r : GateResponse,
      deserialize_gate_response (serialize_gate_response r) = some r) := by
  constructor
  · intro r
    cases r <;>
      simp [serialize_gate_request, deserialize_gate_request, get_field,
        decode_encode_side, decode_encode_order_type, decode_encode_option_num,
        decode_encode_rule_proposal]
  · intro r
    cases r <;>
      simp [serialize_gate_response, deserialize_gate_response, get_field,
        decode_encode_list, decode_encode_check_result, decode_encode_order,
        decode_encode_fill, decode_encode_portfolio_state,
        decode_encode_market_state]

end Gate
